import Mathlib

/-!
Verification development for the merlin-agent HTTP client
(`clients/http/http.go`) and its OPAQUE authenticator
(`authenticators/opaque/opaque.go`).

Go strings are modelled as `List Char` and Go byte slices as `List Nat`;
the Go standard-library string operations used by the source
(`strings.Split`, `strings.ToLower`, `strings.TrimPrefix`/`TrimSuffix`,
`strings.ReplaceAll`, `strconv.Atoi`) are re-implemented below by
structural recursion so that every definition evaluates inside the kernel.
Cryptographic primitives and third-party libraries (crypto/sha256, jose,
gopaque) are not part of the repository; they are modelled by executable
stand-ins whose doc comments start with `Modelled from the spec:`.
-/

namespace Merlin

/-- Go strings, modelled as their character lists. -/
abbrev Chars := List Char

/-- Worker for `goSplit`, driven by a fuel argument so that it is
structurally recursive and kernel-evaluable.  `acc` is the reversed
current field. -/
def splitFuel (sep : Chars) : Nat → Chars → Chars → List Chars
  | 0, acc, rest => [acc.reverse ++ rest]
  | _ + 1, acc, [] => [acc.reverse]
  | fuel + 1, acc, c :: cs =>
      if sep.isPrefixOf (c :: cs) then
        acc.reverse :: splitFuel sep fuel [] ((c :: cs).drop sep.length)
      else splitFuel sep fuel (c :: acc) cs

/-- Go `strings.Split s sep` for a non-empty separator: splits around every
occurrence of `sep`; `Split "" sep = [""]`. -/
def goSplit (s sep : Chars) : List Chars :=
  splitFuel sep (s.length + 1) [] s

/-- Go `strings.ToLower` (ASCII case folding is all the source relies on). -/
def goLower (s : Chars) : Chars := s.map Char.toLower

/-- Go `strings.TrimPrefix s " "`: removes one leading space if present. -/
def goTrimPrefixSpace : Chars → Chars
  | ' ' :: rest => rest
  | s => s

/-- Go `strings.TrimSuffix s " "`: removes one trailing space if present. -/
def goTrimSuffixSpace (s : Chars) : Chars :=
  (goTrimPrefixSpace s.reverse).reverse

/-- Go `strings.Trim s "\"'"`: strips any leading and trailing double or
single quotes (used by `Set` for the ja3 and parrot keys). -/
def goTrimQuotes (s : Chars) : Chars :=
  let isQuote : Char → Bool := fun c => c == Char.ofNat 34 || c == Char.ofNat 39
  ((s.dropWhile isQuote).reverse.dropWhile isQuote).reverse

/-- Digit-string value for `goAtoi`. -/
def digitsValAux : Chars → Nat → Option Nat
  | [], acc => some acc
  | c :: cs, acc =>
      if 48 ≤ c.toNat ∧ c.toNat ≤ 57 then digitsValAux cs (acc * 10 + (c.toNat - 48))
      else none

/-- Value of a non-empty all-digit string. -/
def digitsVal : Chars → Option Nat
  | [] => none
  | cs => digitsValAux cs 0

/-- Go `strconv.Atoi`: optional sign followed by decimal digits. -/
def goAtoi : Chars → Option Int
  | '+' :: rest => (digitsVal rest).map Int.ofNat
  | '-' :: rest => (digitsVal rest).map (fun n => -(n : Int))
  | s => (digitsVal s).map Int.ofNat

/-- Go `strings.ReplaceAll value " " ""` as used by `Set("addr", ...)`:
removing every space is exactly filtering spaces out. -/
def goRemoveSpaces (s : Chars) : Chars := s.filter (fun c => c != ' ')

/-- Whitespace trim on both sides (used only by the spec-side reading of
the Content-Type check, not by the code model). -/
def trimSpaces (s : Chars) : Chars :=
  ((s.dropWhile (fun c => c == ' ')).reverse.dropWhile (fun c => c == ' ')).reverse

/-- Go byte slices. -/
abbrev Bytes := List Nat

/-- Bytes of a Go string (`[]byte(s)`), one abstract byte per character. -/
def charsBytes (s : Chars) : Bytes := s.map Char.toNat

/-- Modelled from the spec: stand-in for `crypto/sha256.Sum256`, which is
outside the repository.  Only its interface matters to the claims: a fixed
function producing a 32-byte digest.  This executable stand-in has the
same arity and output length. -/
def sha256Model (input : Bytes) : Bytes :=
  (List.range 32).map (fun i => input.foldl (fun a b => (a * 31 + b + 1) % 256) (i + 1))

/-- Key derivation `sha256.Sum256([]byte(psk))[:]`, the bootstrap key derived from the PSK. -/
def shaKey (psk : Chars) : Bytes := sha256Model (charsBytes psk)

/-- Bootstrap secrets are 32 bytes, as the spec's invariant table records. -/
theorem shaKey_length (psk : Chars) : (shaKey psk).length = 32 := by
  simp [shaKey, sha256Model]

/-! ## Message data model (`merlin-message`) -/

/-- Modelled from the spec: the OPAQUE message subtypes of
`merlin-message/opaque` (the package is outside the repository). -/
inductive PakeType
  | regInit
  | regComplete
  | authInit
  | authComplete
  | reRegister
  | reAuthenticate
  deriving DecidableEq, Repr

/-- Modelled from the spec: the `opaque.Opaque` payload structure — a
subtype tag and raw payload bytes. -/
structure PakeMsg where
  ptype : PakeType
  payload : Bytes
  deriving DecidableEq, Repr

/-- The runtime variants a `messages.Base` payload can take in the code
under verification: nil, an `opaque.Opaque`, or anything else (raw). -/
inductive BasePayload
  | empty
  | pake (p : PakeMsg)
  | raw (b : Bytes)
  deriving DecidableEq, Repr

/-- Modelled from the spec: `messages.Base`, the unit exchanged with the
server — type tag, agent id (UUID modelled as `Nat`), token, payload and
padding. -/
structure Base where
  mtype : Nat
  id : Nat
  token : Chars
  payload : BasePayload
  padding : Chars
  deriving DecidableEq, Repr

/-- Zero value `messages.Base{}`. Its `Type` is `0`, which the
Authenticate loop treats as "exit". -/
def Base.zero : Base := ⟨0, 0, [], .empty, []⟩

/-- Modelled from the spec: the numeric value of `messages.OPAQUE`.  Only
two facts about it are used by the source: it is a fixed tag and it is
non-zero (zero means "empty message"). -/
def pakeMsgTag : Nat := 6

/-! ## Transform pipeline (`Client.Construct` / `Client.Deconstruct`) -/

/-- The runtime variants a stage's `Deconstruct` may return
(`[]uint8`, `string`, `messages.Base`); a `string` result is re-fed as its
bytes. -/
inductive Value
  | bytes (b : Bytes)
  | str (s : Bytes)
  | msg (m : Base)
  deriving DecidableEq, Repr

/-- The byte content a `Value` feeds to the next stage, if any. -/
def Value.asData : Value → Option Bytes
  | .bytes b => some b
  | .str s => some s
  | .msg _ => none

/-- A transform stage (`transformer.Transformer`).  Go's
`Construct(data any, key)` is split by the two call shapes that occur in
`Client.Construct`: the outermost call passes a `messages.Base`, all
others pass bytes. -/
structure Transformer where
  constructMsg : Base → Bytes → Except String Bytes
  constructBytes : Bytes → Bytes → Except String Bytes
  deconstruct : Bytes → Bytes → Except String Value

/-- The tail of `Client.Construct`'s loop: apply each stage's byte-level
`Construct` in list order, threading the data. -/
def constructFold (key : Bytes) : List Transformer → Bytes → Except String Bytes
  | [], d => .ok d
  | t :: rest, d =>
      match t.constructBytes d key with
      | .error e => .error e
      | .ok d2 => constructFold key rest d2

/-- Model of `Client.Construct`: the loop runs `i = len … 1`, so stage `n-1` is
applied first (to the whole message) and stage `0` last; equivalently the
reversed stage list is folded.  An empty pipeline returns empty data, as
the Go loop body never runs. -/
def constructPipeline (ts : List Transformer) (key : Bytes) (m : Base) : Except String Bytes :=
  match ts.reverse with
  | [] => .ok []
  | t :: rest =>
      match t.constructMsg m key with
      | .error e => .error e
      | .ok d => constructFold key rest d

/-- The client state mutated by `Client.Deconstruct`'s PSK fallback. -/
structure KeyState where
  secret : Bytes
  authenticated : Bool
  deriving DecidableEq, Repr

/-- Loop body of `Client.Deconstruct`: each stage is tried with the current
secret; on failure it is retried with `sha256(psk)`, and if that succeeds
the client flips `authenticated := false` and adopts the PSK key as its
secret; exhausting the pipeline without a `messages.Base` is an error. -/
def deconLoop (pskKey : Bytes) :
    List Transformer → Bytes → KeyState → KeyState × Except String Base
  | [], _, ks =>
      (ks, .error "clients/http.Deconstruct(): unable to transform data into messages.Base structure")
  | t :: rest, data, ks =>
      match t.deconstruct data ks.secret with
      | .ok (.bytes b) => deconLoop pskKey rest b ks
      | .ok (.str s) => deconLoop pskKey rest s ks
      | .ok (.msg m) => (ks, .ok m)
      | .error _ =>
          match t.deconstruct data pskKey with
          | .ok (.bytes b) => deconLoop pskKey rest b ⟨pskKey, false⟩
          | .ok (.str s) => deconLoop pskKey rest s ⟨pskKey, false⟩
          | .ok (.msg m) => (⟨pskKey, false⟩, .ok m)
          | .error e => (ks, .error e)

/-- Dispatch of one stage's successful result inside `deconLoop`: bytes and
strings feed the remaining stages, a `messages.Base` terminates. -/
def deconContinue (pskKey : Bytes) (rest : List Transformer) (v : Value) (ks : KeyState) :
    KeyState × Except String Base :=
  match v with
  | .bytes b => deconLoop pskKey rest b ks
  | .str s => deconLoop pskKey rest s ks
  | .msg m => (ks, .ok m)

/-! ## Stage models

The ten stage implementations live in `transformers/...`, outside the
source under verification; only their names and contracts (§4.1 of the
spec) are fixed by it.  Each stand-in below is an executable, invertible
codec satisfying the spec's round-trip contract for its stage. -/

/-- Length-prefixed byte-list encoding, used by the stand-in codecs. -/
def encList (b : Bytes) : Bytes := b.length :: b

/-- Inverse of `encList` on a prefix: returns the decoded list and the
remaining bytes. -/
def decList : Bytes → Option (Bytes × Bytes)
  | [] => none
  | n :: rest => if n ≤ rest.length then some (rest.take n, rest.drop n) else none

/-- Length-prefixed encoding of a Go string. -/
def encChars (s : Chars) : Bytes := encList (charsBytes s)

/-- Inverse of `encChars` on a prefix. -/
def decChars (b : Bytes) : Option (Chars × Bytes) :=
  (decList b).map (fun p => (p.1.map Char.ofNat, p.2))

/-- Numeric tag of an OPAQUE subtype (for the stand-in serialization). -/
def pakeTag : PakeType → Nat
  | .regInit => 1
  | .regComplete => 2
  | .authInit => 3
  | .authComplete => 4
  | .reRegister => 5
  | .reAuthenticate => 6

/-- Inverse of `pakeTag`. -/
def tagPake : Nat → Option PakeType
  | 1 => some .regInit
  | 2 => some .regComplete
  | 3 => some .authInit
  | 4 => some .authComplete
  | 5 => some .reRegister
  | 6 => some .reAuthenticate
  | _ => none

/-- Serialization of a payload variant (stand-in for gob encoding). -/
def encPayload : BasePayload → Bytes
  | .empty => [0]
  | .pake p => 1 :: pakeTag p.ptype :: encList p.payload
  | .raw b => 2 :: encList b

/-- Inverse of `encPayload`, requiring full consumption. -/
def decPayload : Bytes → Option BasePayload
  | [0] => some .empty
  | 1 :: t :: rest =>
      match tagPake t, decList rest with
      | some pt, some (pl, []) => some (.pake ⟨pt, pl⟩)
      | _, _ => none
  | 2 :: rest =>
      match decList rest with
      | some (pl, []) => some (.raw pl)
      | _ => none
  | _ => none

/-- Serialization of a `messages.Base` (stand-in for gob encoding). -/
def encodeBase (m : Base) : Bytes :=
  m.mtype :: m.id :: (encChars m.token ++ encChars m.padding ++ encPayload m.payload)

/-- Inverse of `encodeBase`. -/
def decodeBase (b : Bytes) : Option Base :=
  match b with
  | mt :: i :: rest =>
      match decChars rest with
      | none => none
      | some (tok, r1) =>
          match decChars r1 with
          | none => none
          | some (pad, r2) =>
              match decPayload r2 with
              | none => none
              | some pl => some ⟨mt, i, tok, pl, pad⟩
  | _ => none

/-- Hex-style nibble encoding: every abstract byte becomes two digits. -/
def hexEncode : Bytes → Bytes
  | [] => []
  | n :: rest => n / 16 :: n % 16 :: hexEncode rest

/-- Inverse of `hexEncode`. -/
def hexDecode : Bytes → Option Bytes
  | [] => some []
  | a :: b :: rest => (hexDecode rest).map (fun l => (a * 16 + b) :: l)
  | [_] => none

/-- Round-trip law of the hex stand-in codec. -/
theorem hexDecode_hexEncode (b : Bytes) : hexDecode (hexEncode b) = some b := by
  induction b with
  | nil => rfl
  | cons n rest ih =>
      have h : n / 16 * 16 + n % 16 = n := by omega
      simp only [hexEncode, hexDecode, ih, Option.map_some, h]
      rfl

/-- Short key fingerprint used by the keyed stand-ins to model an
authentication tag: decryption under the wrong key fails. -/
def keyTag (key : Bytes) : Bytes := (sha256Model key).take 4

/-- Modelled from the spec: the `gob-base` stage — a pure, keyless codec
whose forward direction serializes a `messages.Base` (or a byte slice) and
whose inverse decodes back into a `messages.Base`. -/
def gobBaseStage : Transformer where
  constructMsg m _ := .ok (encodeBase m)
  constructBytes b _ := .ok (encList b)
  deconstruct b _ :=
    match decodeBase b with
    | some m => .ok (.msg m)
    | none => .error "gob: unable to decode data into a Base message"

/-- Modelled from the spec: the `gob-string` stage — keyless codec whose
inverse yields a string. -/
def gobStringStage : Transformer where
  constructMsg _ _ := .error "gob-string: unhandled data type"
  constructBytes b _ := .ok (encList b)
  deconstruct b _ :=
    match decList b with
    | some (x, []) => .ok (.str x)
    | _ => .error "gob: unable to decode data into a string"

/-- Modelled from the spec: the `base64-byte` stage — pure keyless
round-trip codec emitting bytes. -/
def base64ByteStage : Transformer where
  constructMsg _ _ := .error "base64-byte: unhandled data type"
  constructBytes b _ := .ok (64 :: b)
  deconstruct b _ :=
    match b with
    | 64 :: rest => .ok (.bytes rest)
    | _ => .error "base64: illegal data"

/-- Modelled from the spec: the `base64-string` stage — as `base64-byte`
but emitting text. -/
def base64StringStage : Transformer where
  constructMsg _ _ := .error "base64-string: unhandled data type"
  constructBytes b _ := .ok (65 :: b)
  deconstruct b _ :=
    match b with
    | 65 :: rest => .ok (.str rest)
    | _ => .error "base64: illegal data"

/-- Modelled from the spec: the `hex-byte` stage. -/
def hexByteStage : Transformer where
  constructMsg _ _ := .error "hex-byte: unhandled data type"
  constructBytes b _ := .ok (hexEncode b)
  deconstruct b _ :=
    match hexDecode b with
    | some x => .ok (.bytes x)
    | none => .error "hex: odd length hex string"

/-- Modelled from the spec: the `hex-string` stage. -/
def hexStringStage : Transformer where
  constructMsg _ _ := .error "hex-string: unhandled data type"
  constructBytes b _ := .ok (hexEncode b)
  deconstruct b _ :=
    match hexDecode b with
    | some x => .ok (.str x)
    | none => .error "hex: odd length hex string"

/-- Modelled from the spec: the `aes` stage — authenticated symmetric
encryption keyed by the secret; wrong-key deconstruction fails with an
explicit error.  The key tag stands in for nonce+GCM tag. -/
def aesStage : Transformer where
  constructMsg m key := .ok (keyTag key ++ encodeBase m)
  constructBytes b key := .ok (keyTag key ++ b)
  deconstruct b key :=
    if b.take 4 = keyTag key then .ok (.bytes (b.drop 4))
    else .error "aes: cipher: message authentication failed"

/-- Modelled from the spec: the `jwe` stage — signed-then-encrypted JWT
wrapping keyed by the secret; wrong-key deconstruction fails. -/
def jweStage : Transformer where
  constructMsg m key := .ok (keyTag (0 :: key) ++ encodeBase m)
  constructBytes b key := .ok (keyTag (0 :: key) ++ b)
  deconstruct b key :=
    if b.take 4 = keyTag (0 :: key) then .ok (.bytes (b.drop 4))
    else .error "jwe: error decrypting the JWE string"

/-- Keyed stream mixing used by the `rc4` and `xor` stand-ins; applying it
twice with the same key is the identity. -/
def streamMix (key : Bytes) (b : Bytes) : Bytes :=
  b.enum.map (fun p => Nat.xor p.2 (key.getD (p.1 % (key.length + 1)) 0))

/-- Modelled from the spec: the `rc4` stage — unauthenticated keyed stream
cipher whose inverse equals its forward direction. -/
def rc4Stage : Transformer where
  constructMsg _ _ := .error "rc4: unhandled data type"
  constructBytes b key := .ok (streamMix (sha256Model key) b)
  deconstruct b key := .ok (.bytes (streamMix (sha256Model key) b))

/-- Modelled from the spec: the `xor` stage — unauthenticated keyed stream
primitive whose inverse equals its forward direction. -/
def xorStage : Transformer where
  constructMsg _ _ := .error "xor: unhandled data type"
  constructBytes b key := .ok (streamMix key b)
  deconstruct b key := .ok (.bytes (streamMix key b))

/-- The `switch strings.ToLower(transform)` table of `New`: the ten
recognised stage identifiers, matched case-insensitively. -/
def lookupTransform (s : Chars) : Option Transformer :=
  let l := goLower s
  if l = "aes".data then some aesStage
  else if l = "base64-byte".data then some base64ByteStage
  else if l = "base64-string".data then some base64StringStage
  else if l = "gob-base".data then some gobBaseStage
  else if l = "gob-string".data then some gobStringStage
  else if l = "hex-byte".data then some hexByteStage
  else if l = "hex-string".data then some hexStringStage
  else if l = "jwe".data then some jweStage
  else if l = "rc4".data then some rc4Stage
  else if l = "xor".data then some xorStage
  else none

/-! ## OPAQUE authenticator (`authenticators/opaque/opaque.go`) -/

/-- The per-session PAKE artifacts (`opaque.User`).  The gopaque handles
are abstracted to the facts the control flow inspects: the PBKDF2-derived
password material, whether registration-complete and auth handles exist,
and the SIGMA shared secret. -/
structure UserState where
  pwdU : Bytes
  hasRegComplete : Bool
  hasAuth : Bool
  kexSecret : Bytes
  deriving DecidableEq, Repr

/-- Model of `opaque.Authenticator`: agent id, registration and authentication
flags, and the optional user state. -/
structure PakeAuthState where
  agent : Nat
  registered : Bool
  authed : Bool
  user : Option UserState
  deriving DecidableEq, Repr

/-- Modelled from the spec: the fresh user built by `UserRegisterInit` —
a random 30-byte password run through PBKDF2-HMAC-SHA256 (5000
iterations, agent-id salt, 32-byte output).  The randomness and KDF are
outside the repository; the stand-in is a deterministic function of the
agent id with the right shapes (32-byte `pwdU`, 64-byte SIGMA secret). -/
def newUserModel (agent : Nat) : UserState :=
  ⟨sha256Model [agent], false, false, sha256Model [agent, 1] ++ sha256Model [agent, 2]⟩

/-- Model of `opaque.UserRegisterInit`: creates the user when absent, then emits a
`RegInit` message.  The gopaque marshalling is modelled as total. -/
def userRegisterInit (agent : Nat) (user : Option UserState) :
    Except String (PakeMsg × UserState) :=
  let u := user.getD (newUserModel agent)
  .ok (⟨.regInit, [agent]⟩, u)

/-- Model of `opaque.UserRegisterComplete`: checks the inbound subtype, completes
registration once (`regComplete == nil` guard), and emits `RegComplete`.
A nil user is a Go nil-pointer dereference, modelled as an error. -/
def userRegisterComplete (resp : PakeMsg) (user : Option UserState) :
    Except String (PakeMsg × UserState) :=
  match user with
  | none => .error "panic: runtime error: invalid memory address or nil pointer dereference"
  | some u =>
      if resp.ptype ≠ .regInit then
        .error "expected OPAQUE message type RegInit"
      else
        .ok (⟨.regComplete, u.pwdU⟩, { u with hasRegComplete := true })

/-- Model of `opaque.UserAuthenticateInit`: installs fresh key-exchange and auth
handles on the user and emits `AuthInit`. -/
def userAuthenticateInit (agent : Nat) (user : Option UserState) :
    Except String (PakeMsg × UserState) :=
  match user with
  | none => .error "panic: runtime error: invalid memory address or nil pointer dereference"
  | some u => .ok (⟨.authInit, [agent]⟩, { u with hasAuth := true })

/-- Model of `opaque.UserAuthenticateComplete`: checks the inbound subtype and
emits `AuthComplete`. -/
def userAuthenticateComplete (resp : PakeMsg) (user : Option UserState) :
    Except String PakeMsg :=
  if resp.ptype ≠ .authInit then
    .error "expected OPAQUE message type AuthInit"
  else
    match user with
    | none => .error "panic: runtime error: invalid memory address or nil pointer dereference"
    | some _ => .ok ⟨.authComplete, []⟩

/-- Result of the ReRegister/ReAuthenticate pre-processing block at the
top of `Authenticator.Authenticate`: either the early `return
messages.Base{}, false, nil` or the (possibly adjusted) state and inbound
message for the rest of the function. -/
inductive PreOut
  | earlyExit
  | cont (a : PakeAuthState) (inM : Base)

/-- The `if in.Type == messages.OPAQUE { if in.Payload != nil { switch ...
} }` block of `Authenticator.Authenticate`.  A non-`opaque.Opaque`
payload makes the type assertion panic. -/
def preStep (a : PakeAuthState) (inM : Base) : Except String PreOut :=
  if inM.mtype = pakeMsgTag then
    match inM.payload with
    | .empty => .ok (.cont a inM)
    | .pake o =>
        match o.ptype with
        | .reRegister =>
            if ¬ a.registered then .ok .earlyExit
            else .ok (.cont { a with registered := false, user := none } inM)
        | .reAuthenticate =>
            .ok (.cont { a with authed := false }
              { inM with payload := .pake ⟨.regComplete, []⟩ })
        | _ => .ok (.cont a inM)
    | .raw _ => .error "panic: interface conversion: payload is not opaque.Opaque"
  else .ok (.cont a inM)

/-- The body of `Authenticator.Authenticate` after the pre-processing
block: RegInit start, id/type validation, and the subtype switch. -/
def pakeMain (a : PakeAuthState) (inM : Base) :
    Except String (Base × Bool × PakeAuthState) :=
  let out0 : Base := { Base.zero with id := a.agent, mtype := pakeMsgTag }
  if ¬ a.registered ∧ inM.payload = .empty then
    match userRegisterInit a.agent a.user with
    | .error e => .error e
    | .ok (msg, u) => .ok ({ out0 with payload := .pake msg }, false, { a with user := some u })
  else if inM.id ≠ a.agent then
    .error "authenticators: Incoming message ID does not match Agent ID"
  else if inM.mtype ≠ pakeMsgTag then
    .error "authenticators: Incoming message type was not an OPAQUE type"
  else
    match inM.payload with
    | .empty => .error "panic: interface conversion: payload is nil"
    | .raw _ => .error "panic: interface conversion: payload is not opaque.Opaque"
    | .pake o =>
        match o.ptype with
        | .regInit =>
            match userRegisterComplete o a.user with
            | .error e => .error e
            | .ok (msg, u) =>
                .ok ({ out0 with payload := .pake msg }, false,
                  { a with registered := true, user := some u })
        | .regComplete =>
            match userAuthenticateInit a.agent a.user with
            | .error e => .error e
            | .ok (msg, u) =>
                .ok ({ out0 with payload := .pake msg }, false, { a with user := some u })
        | .authInit =>
            match userAuthenticateComplete o a.user with
            | .error e => .error e
            | .ok msg =>
                .ok ({ out0 with payload := .pake msg }, true, { a with authed := true })
        | .reRegister =>
            match userRegisterInit a.agent none with
            | .error e => .error e
            | .ok (msg, u) =>
                .ok ({ out0 with payload := .pake msg }, false,
                  { a with registered := false, user := some u })
        | .reAuthenticate =>
            match userAuthenticateInit a.agent a.user with
            | .error e => .error e
            | .ok (msg, u) =>
                .ok ({ out0 with payload := .pake msg }, false,
                  { a with authed := false, user := some u })
        | .authComplete => .ok (out0, false, a)

/-- Model of `Authenticator.Authenticate` for the OPAQUE authenticator: the
pre-processing block (with its early exit), then the main body. -/
def pakeAuthenticate (a : PakeAuthState) (inM : Base) :
    Except String (Base × Bool × PakeAuthState) :=
  match preStep a inM with
  | .error e => .error e
  | .ok .earlyExit => .ok (Base.zero, false, a)
  | .ok (.cont a1 m1) => pakeMain a1 m1

/-- Model of `Authenticator.Secret` for OPAQUE: valid only once authenticated; a
nil user would be a nil-pointer dereference. -/
def pakeSecret (a : PakeAuthState) : Except String Bytes :=
  if ¬ a.authed then
    .error "authenticators: the Agent has not completed OPAQUE authentication"
  else
    match a.user with
    | none => .error "panic: runtime error: invalid memory address or nil pointer dereference"
    | some u => .ok u.kexSecret

/-- The client's authenticator handle: the trivial "none" variant or the
OPAQUE state machine. -/
inductive Auth
  | noneAuth (agent : Nat)
  | pakeAuth (s : PakeAuthState)
  deriving Repr

/-- Model of `Authenticator.String()`: the human name the URL-rotation guard
compares against "OPAQUE". -/
def Auth.name : Auth → Chars
  | .noneAuth _ => "None".data
  | .pakeAuth _ => "OPAQUE".data

/-- Modelled from the spec: the trivial "none" authenticator — one step,
immediately done (its package is outside the repository). -/
def noneAuthenticate (agent : Nat) (_ : Base) : Except String (Base × Bool) :=
  .ok ({ Base.zero with id := agent, mtype := 1 }, true)

/-- One authenticator step, threading the updated authenticator state. -/
def Auth.step (au : Auth) (inM : Base) : Except String (Base × Bool × Auth) :=
  match au with
  | .noneAuth ag =>
      match noneAuthenticate ag inM with
      | .error e => .error e
      | .ok (o, done) => .ok (o, done, .noneAuth ag)
  | .pakeAuth s =>
      match pakeAuthenticate s inM with
      | .error e => .error e
      | .ok (o, done, s2) => .ok (o, done, .pakeAuth s2)

/-- Model of `Authenticator.Secret()`: the none variant yields a zero-length key
(modelled from the spec), OPAQUE defers to `pakeSecret`. -/
def Auth.secretOf : Auth → Except String Bytes
  | .noneAuth _ => .ok []
  | .pakeAuth s => pakeSecret s

/-! ## Client state, construction and reconfiguration (`clients/http/http.go`) -/

/-- The fields of `http.Client` the verified behaviour touches.  The
`http.Client` transport object itself carries no claim-relevant state and
is not modelled (its construction can still fail, see `getClientModel`). -/
structure ClientState where
  agentID : Nat
  protocol : Chars
  URL : List Chars
  host : Chars
  proxy : Chars
  jwt : Chars
  headers : List (Chars × Chars)
  secret : Bytes
  userAgent : Chars
  paddingMax : Int
  parrot : Chars
  ja3 : Chars
  psk : Chars
  currentURL : Nat
  transformers : List Transformer
  auth : Auth
  authenticated : Bool

/-- Model of `http.Config`. -/
structure Config where
  agentID : Nat
  protocol : Chars
  host : Chars
  headers : Chars
  URL : List Chars
  proxy : Chars
  userAgent : Chars
  parrot : Chars
  PSK : Chars
  JA3 : Chars
  padding : Chars
  authPackage : Chars
  transformers : Chars
  deriving DecidableEq, Repr

/-- The ways `New` can fail, including the out-of-range index panic the
header parser commits on a line without a colon. -/
inductive NewErr
  | badAuthenticator
  | badTransform (name : Chars)
  | badPadding
  | headerIndexPanic
  | badProtocol (p : Chars)
  deriving DecidableEq, Repr

/-- The transformer-parsing loop of `New`: look each comma-separated
identifier up, failing on the first unknown one. -/
def parseTransformList : List Chars → Except NewErr (List Transformer)
  | [] => .ok []
  | t :: rest =>
      match lookupTransform t with
      | none => .error (.badTransform t)
      | some tr =>
          match parseTransformList rest with
          | .error e => .error e
          | .ok l => .ok (tr :: l)

/-- The header-parsing loop of `New`: split on the literal two-character
`\n`, split each line on `:`, trim one space off each side of key and
value.  Accessing `h[1]` on a line without a colon is an index-out-of-range
panic in Go, modelled as `NewErr.headerIndexPanic`. -/
def parseHeaderLines : List Chars → Except NewErr (List (Chars × Chars))
  | [] => .ok []
  | line :: rest =>
      match goSplit line ":".data with
      | k :: v :: _ =>
          match parseHeaderLines rest with
          | .error e => .error e
          | .ok hs =>
              .ok ((goTrimSuffixSpace (goTrimPrefixSpace k),
                    goTrimSuffixSpace (goTrimPrefixSpace v)) :: hs)
      | _ => .error .headerIndexPanic

/-- Model of `getClient`: a JA3 string or parrot name short-circuits the protocol
switch; otherwise the protocol must be one of the five recognised tags.
The transports themselves carry no claim-relevant state, so the model
retains only success or failure. -/
def getClientModel (protocol _proxy ja3 parrot : Chars) : Except NewErr Unit :=
  if ja3 ≠ [] then .ok ()
  else if parrot ≠ [] then .ok ()
  else
    let p := goLower protocol
    if p = "http3".data ∨ p = "h2".data ∨ p = "h2c".data ∨ p = "https".data ∨ p = "http".data
    then .ok ()
    else .error (.badProtocol protocol)

/-- The `switch strings.ToLower(config.AuthPackage)` block of `New`:
`none` and `opaque` are the recognised authenticators. -/
def authFromPackage (pkg : Chars) (agent : Nat) : Option Auth :=
  if goLower pkg = "none".data then some (.noneAuth agent)
  else if goLower pkg = "opaque".data then some (.pakeAuth ⟨agent, false, false, none⟩)
  else none

/-- Construction of the client from the config, in the source's order:
authenticator, transformers, secret from SHA-256(PSK), padding `Atoi`,
header parsing, transport construction — with the source's failure
modes. -/
def New (cfg : Config) : Except NewErr ClientState :=
  match authFromPackage cfg.authPackage cfg.agentID with
  | none => .error .badAuthenticator
  | some au =>
      match parseTransformList (goSplit cfg.transformers ",".data) with
      | .error e => .error e
      | .ok ts =>
          match (if cfg.padding ≠ [] then
                   match goAtoi cfg.padding with
                   | none => Except.error NewErr.badPadding
                   | some n => Except.ok n
                 else Except.ok 0) with
          | .error e => .error e
          | .ok padMax =>
              match (if cfg.headers ≠ [] then parseHeaderLines (goSplit cfg.headers "\\n".data)
                     else .ok []) with
              | .error e => .error e
              | .ok hs =>
                  match getClientModel cfg.protocol cfg.proxy cfg.JA3 cfg.parrot with
                  | .error e => .error e
                  | .ok _ =>
                      .ok { agentID := cfg.agentID, protocol := cfg.protocol, URL := cfg.URL,
                            host := cfg.host, proxy := cfg.proxy, jwt := [], headers := hs,
                            secret := shaKey cfg.PSK, userAgent := cfg.userAgent,
                            paddingMax := padMax, parrot := cfg.parrot, ja3 := cfg.JA3,
                            psk := cfg.PSK, currentURL := 0, transformers := ts, auth := au,
                            authenticated := false }

/-- Modelled from the spec: the serialized bootstrap JWT of §4.2 — jose
signing and encryption are outside the repository; the token is a function
of the SHA-256(PSK) key and the agent id (issue/expiry timestamps are not
modelled). -/
def mintJWTModel (key : Bytes) (agentID : Nat) : Chars :=
  'J' :: Char.ofNat (33 + agentID % 90) :: key.map (fun n => Char.ofNat (65 + n % 26))

/-- Model of `Client.getJWT`: the bootstrap token is always keyed by SHA-256 of the
client's PSK. -/
def getJWT (st : ClientState) : Chars := mintJWTModel (shaKey st.psk) st.agentID

/-- Model of `Client.Deconstruct`: run the pipeline with the dual-key loop and fold
the key-state mutations back into the client, whether or not the loop
succeeded (Go mutates the client in place). -/
def Deconstruct (st : ClientState) (data : Bytes) : ClientState × Except String Base :=
  let r := deconLoop (shaKey st.psk) st.transformers data ⟨st.secret, st.authenticated⟩
  ({ st with secret := r.1.secret, authenticated := r.1.authenticated }, r.2)

/-- Model of `Client.Construct` applied to the client's own pipeline and secret. -/
def ClientConstruct (st : ClientState) (m : Base) : Except String Bytes :=
  constructPipeline st.transformers st.secret m

/-- The response of one `client.Client.Do` call. -/
structure HttpResp where
  status : Nat
  contentType : Chars
  contentLength : Int
  body : Bytes
  deriving DecidableEq, Repr

/-- The environment of a single `Send`: the transport's outcome and the
two `rand` draws (`rand.Intn(len(URL))` for rotation and the random
padding string).  `randURL` models `rand.Intn`, whose contract
`randURL < len(URL)` is a hypothesis where it matters. -/
structure Env where
  doResult : Except Chars HttpResp
  randURL : Nat
  randPadding : Chars

/-- The error kinds `Send` surfaces. -/
inductive SendErr
  | constructErr (e : String)
  | transport (e : Chars)
  | server (status : Nat)
  | noContentType
  | notOctetStream
  | emptyBody
  | deconstructErr (e : String)
  deriving DecidableEq, Repr

/-- The Content-Type acceptance test of `Send`: split on commas and
compare each piece, lowercased but NOT whitespace-trimmed, against
`application/octet-stream`. -/
def isOctet (ct : Chars) : Bool :=
  (goSplit ct ",".data).any (fun v => goLower v == "application/octet-stream".data)

/-- The spec's §4.4 step-8 wording, as its own definition for comparison
with `isOctet`: the Content-Type "contains the token
application/octet-stream (case-insensitive, comma-tolerant)" — i.e. some
comma-separated piece equals the token up to case and surrounding
whitespace. -/
def specContainsOctetToken (ct : Chars) : Bool :=
  (goSplit ct ",".data).any (fun v => goLower (trimSpaces v) == "application/octet-stream".data)

/-- The padding step of `Send`: when `PaddingMax > 0` the message padding
becomes a random string (the draw is `env.randPadding`). -/
def padApply (st : ClientState) (env : Env) (m : Base) : Base :=
  if 0 < st.paddingMax then { m with padding := env.randPadding } else m

/-- The URL-rotation step of `Send`, verbatim from the source: no rotation
while the authenticator is OPAQUE and the secret is not 64 bytes;
otherwise, with more than one URL, the next index is the `rand.Intn`
draw. -/
def rotateURL (st : ClientState) (env : Env) : ClientState :=
  if st.auth.name = "OPAQUE".data ∧ st.secret.length ≠ 64 then st
  else if 1 < st.URL.length then { st with currentURL := env.randURL }
  else st

/-- Model of `Client.Send`: padding, construct, POST (via `env.doResult`), URL
rotation BEFORE the transport-error check, status dispatch
(200/401/other), Content-Type and Content-Length checks, deconstruct, and
the token-conditional JWT update.  The HTTP/3 transport rebuild on the
error path only replaces the unmodelled `http.Client` object. -/
def Send (st : ClientState) (env : Env) (m0 : Base) :
    ClientState × Except SendErr (List Base) :=
  let m := padApply st env m0
  match ClientConstruct st m with
  | .error e => (st, .error (.constructErr e))
  | .ok _ =>
      let st1 := rotateURL st env
      match env.doResult with
      | .error e => (st1, .error (.transport e))
      | .ok resp =>
          if resp.status = 200 then
            if resp.contentType = [] then (st1, .error .noContentType)
            else if isOctet resp.contentType then
              if resp.contentLength = 0 then (st1, .error .emptyBody)
              else
                let dr := Deconstruct st1 resp.body
                match dr.2 with
                | .error e => (dr.1, .error (.deconstructErr e))
                | .ok rm =>
                    if rm.token ≠ [] then ({ dr.1 with jwt := rm.token }, .ok [rm])
                    else (dr.1, .ok [rm])
            else (st1, .error .notOctetStream)
          else if resp.status = 401 then
            ({ st1 with jwt := getJWT st1 }, .ok [])
          else (st1, .error (.server resp.status))

/-- Model of `Client.Set`: the addr/ja3/jwt/parrot/paddingmax/secret switch.  Note
that the `addr` case replaces the URL list WITHOUT touching `currentURL`
(URL validation via `url.Parse` and the transport rebuild are modelled as
always succeeding). -/
def SetOp (st : ClientState) (key value : Chars) : ClientState × Option String :=
  let k := goLower key
  if k = "addr".data then
    ({ st with URL := goSplit (goRemoveSpaces value) ",".data }, none)
  else if k = "ja3".data then ({ st with ja3 := goTrimQuotes value }, none)
  else if k = "jwt".data then ({ st with jwt := value }, none)
  else if k = "parrot".data then ({ st with parrot := goTrimQuotes value }, none)
  else if k = "paddingmax".data then
    match goAtoi value with
    | none => ({ st with paddingMax := 0 }, some "there was an error converting the padding max")
    | some n => ({ st with paddingMax := n }, none)
  else if k = "secret".data then ({ st with secret := charsBytes value }, none)
  else (st, some "unknown http client setting")

/-- Errors out of the `Authenticate` loop. -/
inductive AuthErr
  | stepErr (e : String)
  | sendErr (e : SendErr)
  | fuelOut
  | noEnv
  deriving DecidableEq, Repr

/-- The `for` loop of `Client.Authenticate`: authenticator step, error
check, empty-message (`Type == 0`) exit, post-authentication secret
adoption, `Send`, response chaining, and the authenticated exit.  The
unbounded Go loop is driven by explicit fuel and one `Env` per `Send`. -/
def authLoop : Nat → ClientState → List Env → Base → ClientState × Option AuthErr
  | 0, st, _, _ => (st, some .fuelOut)
  | fuel + 1, st, envs, msg =>
      match Auth.step st.auth msg with
      | .error e => (st, some (.stepErr e))
      | .ok (msg1, authed, au1) =>
          let st1 := { st with auth := au1 }
          if msg1.mtype = 0 then (st1, none)
          else
            let st2 := if authed then { st1 with authenticated := true } else st1
            match (if authed then Auth.secretOf au1 else .ok []) with
            | .error e => (st2, some (.stepErr e))
            | .ok key =>
                let st3 := if 0 < key.length then { st2 with secret := key } else st2
                match envs with
                | [] => (st3, some .noEnv)
                | env :: envRest =>
                    match Send st3 env msg1 with
                    | (st4, .error e) => (st4, some (.sendErr e))
                    | (st4, .ok msgs) =>
                        let msg2 := match msgs with
                          | m2 :: _ => m2
                          | [] => msg1
                        if authed then (st4, none)
                        else authLoop fuel st4 envRest msg2

/-- The prologue of `Client.Authenticate`: reset the authenticated flag,
reset the secret to SHA-256(PSK), and mint a bootstrap JWT. -/
def authPrep (st : ClientState) : ClientState :=
  let st1 := { st with authenticated := false, secret := shaKey st.psk }
  { st1 with jwt := getJWT st1 }

/-- Model of `Client.Authenticate`: the prologue, then the loop. -/
def Authenticate (fuel : Nat) (st : ClientState) (envs : List Env) (msg : Base) :
    ClientState × Option AuthErr :=
  authLoop fuel (authPrep st) envs msg

/-! ## Claim C1 — pipeline round trip -/

/-- Inverting a run of byte-level stages: if folding the stages of `us`
over `d` produced `wire`, then the deconstruction loop applied to
`us.reverse ++ rest` on `wire` reaches `rest` carrying `d`, with the key
state untouched. -/
theorem deconLoop_append_inverse (pskKey k : Bytes) (us : List Transformer)
    (hinner : ∀ t ∈ us, ∀ b c, t.constructBytes b k = .ok c →
        ∃ v, t.deconstruct c k = .ok v ∧ v.asData = some b)
    (d wire : Bytes) (hcon : constructFold k us d = .ok wire)
    (rest : List Transformer) (ks : KeyState) (hks : ks.secret = k) :
    deconLoop pskKey (us.reverse ++ rest) wire ks = deconLoop pskKey rest d ks := by
  induction us generalizing d rest with
  | nil =>
      simp only [constructFold] at hcon
      cases hcon
      simp
  | cons u us ih =>
      simp only [constructFold] at hcon
      cases h1 : u.constructBytes d k with
      | error e => rw [h1] at hcon; cases hcon
      | ok d1 =>
          rw [h1] at hcon
          have hrec := ih (fun t ht => hinner t (List.mem_cons_of_mem _ ht)) d1 hcon (u :: rest)
          rw [List.reverse_cons, List.append_assoc, List.singleton_append]
          rw [hrec]
          obtain ⟨v, hv, hvd⟩ := hinner u (List.mem_cons_self _ _) d d1 h1
          cases v with
          | bytes b =>
              simp only [Value.asData, Option.some.injEq] at hvd
              subst hvd
              simp only [deconLoop, hks, hv]
          | str s =>
              simp only [Value.asData, Option.some.injEq] at hvd
              subst hvd
              simp only [deconLoop, hks, hv]
          | msg mm => simp [Value.asData] at hvd

/-- C1: for every transform pipeline, every Message `m` and every key `k`
(with every stage satisfying its §4.1 round-trip contract at `k` — the
stage implementations live outside the repository), deconstructing the
bytes produced by `Construct(m)` under the same key yields `m` again, and
does so exactly — in particular the padding field is carried through
unchanged, so the round trip holds even without quotienting by padding.
The client state is also left untouched. -/
theorem construct_deconstruct_roundtrip
    (st : ClientState) (inner : List Transformer) (tl : Transformer)
    (m : Base) (k wire : Bytes)
    (hts : st.transformers = inner ++ [tl])
    (hsec : st.secret = k)
    (hlast : ∀ c, tl.constructMsg m k = .ok c → tl.deconstruct c k = .ok (.msg m))
    (hinner : ∀ t ∈ inner, ∀ b c, t.constructBytes b k = .ok c →
        ∃ v, t.deconstruct c k = .ok v ∧ v.asData = some b)
    (hcon : ClientConstruct st m = .ok wire) :
    Deconstruct st wire = (st, .ok m) := by
  unfold ClientConstruct constructPipeline at hcon
  rw [hts, hsec, List.reverse_append] at hcon
  simp only [List.reverse_cons, List.reverse_nil, List.nil_append, List.singleton_append] at hcon
  cases hml : tl.constructMsg m k with
  | error e => rw [hml] at hcon; cases hcon
  | ok d0 =>
      rw [hml] at hcon
      have hinner2 : ∀ t ∈ inner.reverse, ∀ b c, t.constructBytes b k = .ok c →
          ∃ v, t.deconstruct c k = .ok v ∧ v.asData = some b :=
        fun t ht => hinner t (List.mem_reverse.mp ht)
      have hkey := deconLoop_append_inverse (shaKey st.psk) k inner.reverse hinner2 d0 wire hcon
        [tl] ⟨st.secret, st.authenticated⟩ hsec
      rw [List.reverse_reverse] at hkey
      have hr : deconLoop (shaKey st.psk) st.transformers wire ⟨st.secret, st.authenticated⟩ =
          (⟨st.secret, st.authenticated⟩, .ok m) := by
        rw [hts, hkey]
        simp only [deconLoop, hsec, hlast d0 hml]
      unfold Deconstruct
      rw [hr]

/-- Concrete pipeline and message for the C1 witness: a hex stage inside a
gob stage. -/
def stC1 : ClientState :=
  { agentID := 5, protocol := "http".data, URL := ["u".data], host := [], proxy := [],
    jwt := [], headers := [], secret := [1, 2], userAgent := [], paddingMax := 0,
    parrot := [], ja3 := [], psk := "psk".data, currentURL := 0,
    transformers := [hexByteStage, gobBaseStage], auth := .noneAuth 5, authenticated := false }

/-- The message round-tripped by the C1 witness. -/
def mC1 : Base := ⟨3, 5, ['t'], .pake ⟨.regInit, [9]⟩, ['p']⟩

/-- The wire bytes `Construct` produces for `mC1` under `stC1`. -/
def wireC1 : Bytes := hexEncode (encodeBase mC1)

/-- Witness for C1: the concrete pipeline `[hex-byte, gob-base]` round-trips
`mC1` under key `[1, 2]`. -/
theorem construct_deconstruct_roundtrip_witness :
    Deconstruct stC1 wireC1 = (stC1, .ok mC1) := by
  apply construct_deconstruct_roundtrip stC1 [hexByteStage] gobBaseStage mC1 [1, 2] wireC1
    rfl rfl
  · intro c hc
    injection hc with h
    subst h
    rfl
  · intro t ht b c hc
    rw [List.mem_singleton] at ht
    subst ht
    injection hc with h
    subst h
    refine ⟨.bytes b, ?_, rfl⟩
    show (match hexDecode (hexEncode b) with
      | some x => Except.ok (Value.bytes x)
      | none => Except.error "hex: odd length hex string") = Except.ok (Value.bytes b)
    rw [hexDecode_hexEncode]
  · rfl

/-! ## Claim C2 — dual-key fallback -/

/-- Once the key state already holds the PSK-derived key, a successful run
of the deconstruction loop leaves it unchanged: a later stage that fails
is retried with the same key and fails again, so success implies no
further mutation. -/
theorem deconLoop_psk_stable (pskKey : Bytes) (ts : List Transformer) (d : Bytes)
    (ks : KeyState) (hks : ks.secret = pskKey) (m : Base) (ks2 : KeyState)
    (h : deconLoop pskKey ts d ks = (ks2, .ok m)) : ks2 = ks := by
  induction ts generalizing d with
  | nil =>
      simp only [deconLoop] at h
      injection h with h1 h2
      exact Except.noConfusion h2
  | cons t rest ih =>
      simp only [deconLoop] at h
      cases h1 : t.deconstruct d ks.secret with
      | ok v =>
          rw [h1] at h
          cases v with
          | bytes b => exact ih b h
          | str s => exact ih s h
          | msg mm =>
              injection h with h1 h2
              exact h1.symm
      | error e =>
          rw [h1] at h
          rw [hks] at h1
          rw [h1] at h
          injection h with h1 h2
          exact Except.noConfusion h2

/-- C2: when the first stage of the pipeline fails under the client's
current secret, `Deconstruct` retries that stage keyed by SHA-256(PSK);
if the retry succeeds and the rest of the pipeline completes, the whole
deconstruction succeeds, the client's `authenticated` flag is false and
its secret has become SHA-256(PSK). -/
theorem deconstruct_psk_fallback
    (st : ClientState) (t : Transformer) (rest : List Transformer)
    (data : Bytes) (v : Value) (e : String) (m : Base) (ks2 : KeyState)
    (hts : st.transformers = t :: rest)
    (hfail : t.deconstruct data st.secret = .error e)
    (hretry : t.deconstruct data (shaKey st.psk) = .ok v)
    (hcont : deconContinue (shaKey st.psk) rest v ⟨shaKey st.psk, false⟩ = (ks2, .ok m)) :
    Deconstruct st data =
      ({ st with secret := shaKey st.psk, authenticated := false }, .ok m) := by
  have hr : deconLoop (shaKey st.psk) st.transformers data ⟨st.secret, st.authenticated⟩ =
      (⟨shaKey st.psk, false⟩, .ok m) := by
    rw [hts]
    simp only [deconLoop, hfail, hretry]
    cases v with
    | bytes b =>
        have hcont2 : deconLoop (shaKey st.psk) rest b ⟨shaKey st.psk, false⟩ =
          (ks2, Except.ok m) := hcont
        have hks2 := deconLoop_psk_stable (shaKey st.psk) rest b ⟨shaKey st.psk, false⟩ rfl m ks2
          hcont2
        show deconLoop (shaKey st.psk) rest b ⟨shaKey st.psk, false⟩ =
          ((⟨shaKey st.psk, false⟩ : KeyState), Except.ok m)
        rw [hcont2, hks2]
    | str s =>
        have hcont2 : deconLoop (shaKey st.psk) rest s ⟨shaKey st.psk, false⟩ =
          (ks2, Except.ok m) := hcont
        have hks2 := deconLoop_psk_stable (shaKey st.psk) rest s ⟨shaKey st.psk, false⟩ rfl m ks2
          hcont2
        show deconLoop (shaKey st.psk) rest s ⟨shaKey st.psk, false⟩ =
          ((⟨shaKey st.psk, false⟩ : KeyState), Except.ok m)
        rw [hcont2, hks2]
    | msg mm =>
        have hcont2 : ((⟨shaKey st.psk, false⟩ : KeyState), Except.ok mm) =
          (ks2, Except.ok m) := hcont
        injection hcont2 with h1 h2
        injection h2 with h2
        show ((⟨shaKey st.psk, false⟩ : KeyState), Except.ok mm) =
          ((⟨shaKey st.psk, false⟩ : KeyState), Except.ok m)
        rw [h2]
  unfold Deconstruct
  rw [hr]

/-- Client for the C2 witness: authenticated with a 64-byte session key,
while the response bytes were sealed under SHA-256(PSK). -/
def stC2 : ClientState :=
  { agentID := 4, protocol := "https".data, URL := ["u".data], host := [], proxy := [],
    jwt := ['x'], headers := [], secret := List.replicate 64 1, userAgent := [],
    paddingMax := 0, parrot := [], ja3 := [], psk := "test".data, currentURL := 0,
    transformers := [aesStage, gobBaseStage], auth := .pakeAuth ⟨4, true, true, none⟩,
    authenticated := true }

/-- The message recovered by the C2 witness. -/
def mC2 : Base := ⟨2, 4, [], .empty, []⟩

/-- Response bytes sealed under SHA-256(PSK) rather than the session key. -/
def dataC2 : Bytes := keyTag (shaKey "test".data) ++ encodeBase mC2

set_option maxRecDepth 8000 in
/-- Witness for C2: a response sealed under SHA-256(PSK) while the client
holds a 64-byte session key deconstructs via the fallback, flips the flag
and adopts the PSK key. -/
theorem deconstruct_psk_fallback_witness :
    Deconstruct stC2 dataC2 =
      ({ stC2 with secret := shaKey stC2.psk, authenticated := false }, .ok mC2) :=
  deconstruct_psk_fallback stC2 aesStage [gobBaseStage] dataC2 (.bytes (encodeBase mC2))
    "aes: cipher: message authentication failed" mC2 ⟨shaKey "test".data, false⟩
    rfl rfl rfl rfl

/-! ## Claim C3 — URL rotation placement and law -/

/-- URL rotation never touches the URL list itself. -/
theorem rotateURL_URL (st : ClientState) (env : Env) : (rotateURL st env).URL = st.URL := by
  unfold rotateURL
  split_ifs <;> rfl

/-- URL rotation only ever moves `currentURL`, and only to the
`rand.Intn` draw. -/
theorem rotateURL_cur (st : ClientState) (env : Env) :
    (rotateURL st env).currentURL = st.currentURL ∨
    (rotateURL st env).currentURL = env.randURL := by
  unfold rotateURL
  split_ifs <;> simp

/-- Rotation leaves every field other than `currentURL` unchanged. -/
theorem rotateURL_frame (st : ClientState) (env : Env) :
    (rotateURL st env).psk = st.psk ∧ (rotateURL st env).agentID = st.agentID ∧
    (rotateURL st env).jwt = st.jwt ∧ (rotateURL st env).secret = st.secret ∧
    (rotateURL st env).transformers = st.transformers ∧
    (rotateURL st env).authenticated = st.authenticated := by
  unfold rotateURL
  split_ifs <;> exact ⟨rfl, rfl, rfl, rfl, rfl, rfl⟩

/-- C3: in `Send`, URL rotation is applied after the request is issued but
before the response error is interpreted — a transport error still returns
the rotated state; rotation is suppressed exactly when the authenticator
is OPAQUE and the secret is not 64 bytes; otherwise, with more than one
URL configured, the next `currentURL` is the `rand.Intn(len(URL))` draw,
which ranges over the full index set including the current index (the
uniformity of the draw is the Go PRNG's contract, represented here by the
free oracle `env.randURL`). -/
theorem send_rotates_before_error_check
    (st : ClientState) (env : Env) (m : Base) (e : Chars) (d : Bytes)
    (hcons : ClientConstruct st (padApply st env m) = .ok d)
    (hdo : env.doResult = .error e)
    (_hrand : env.randURL < st.URL.length) :
    Send st env m = (rotateURL st env, .error (.transport e))
    ∧ (st.auth.name = "OPAQUE".data ∧ st.secret.length ≠ 64 →
        (rotateURL st env).currentURL = st.currentURL)
    ∧ (¬ (st.auth.name = "OPAQUE".data ∧ st.secret.length ≠ 64) → 1 < st.URL.length →
        (rotateURL st env).currentURL = env.randURL) := by
  refine ⟨?_, ?_, ?_⟩
  · simp only [Send, hcons, hdo]
  · intro h
    unfold rotateURL
    rw [if_pos h]
  · intro h h2
    unfold rotateURL
    rw [if_neg h, if_pos h2]

/-- Client for the C3 witness: three URLs, "none" authenticator. -/
def stC3 : ClientState :=
  { agentID := 1, protocol := "http".data, URL := ["a".data, "b".data, "c".data], host := [],
    proxy := [], jwt := [], headers := [], secret := shaKey "k".data, userAgent := [],
    paddingMax := 0, parrot := [], ja3 := [], psk := "k".data, currentURL := 0,
    transformers := [gobBaseStage], auth := .noneAuth 1, authenticated := false }

/-- Message for the C3 witness. -/
def mC3 : Base := ⟨1, 1, [], .empty, []⟩

/-- Environment for the C3 witness: the POST fails, the rotation draw is 2. -/
def envC3 : Env := ⟨.error "connection refused".data, 2, []⟩

/-- Witness for C3: a failed POST still rotates `currentURL` to the draw. -/
theorem send_rotates_before_error_check_witness :
    Send stC3 envC3 mC3 = (rotateURL stC3 envC3, .error (.transport "connection refused".data))
    ∧ (rotateURL stC3 envC3).currentURL = 2 := by
  have h := send_rotates_before_error_check stC3 envC3 mC3 "connection refused".data
    (encodeBase mC3) rfl rfl (by decide)
  exact ⟨h.1, h.2.2 (by decide) (by decide)⟩

/-! ## Claim C6 — 401 remint and other-status errors -/

/-- C6: on HTTP status 401, `Send` replaces the client JWT with a fresh
bootstrap token minted from SHA-256(PSK) and the agent id, and returns
normally with an empty message list; any status other than 200 and 401
makes `Send` fail with a Server error carrying the numeric status. -/
theorem send_status_dispatch
    (st : ClientState) (env : Env) (m : Base) (resp : HttpResp) (d : Bytes)
    (hcons : ClientConstruct st (padApply st env m) = .ok d)
    (hdo : env.doResult = .ok resp) :
    (resp.status = 401 →
      Send st env m = ({ rotateURL st env with jwt := getJWT (rotateURL st env) }, .ok [])
      ∧ getJWT (rotateURL st env) = mintJWTModel (shaKey st.psk) st.agentID)
    ∧ (resp.status ≠ 200 → resp.status ≠ 401 →
      Send st env m = (rotateURL st env, .error (.server resp.status))) := by
  constructor
  · intro h401
    constructor
    · simp only [Send, hcons, hdo, h401]
      norm_num
    · unfold getJWT
      rw [(rotateURL_frame st env).1, (rotateURL_frame st env).2.1]
  · intro h200 h401
    simp only [Send, hcons, hdo, if_neg h200, if_neg h401]

/-- Client for the C6 witness. -/
def stC6 : ClientState :=
  { agentID := 8, protocol := "http".data, URL := ["a".data], host := [], proxy := [],
    jwt := ['o', 'l', 'd'], headers := [], secret := shaKey "w".data, userAgent := [],
    paddingMax := 0, parrot := [], ja3 := [], psk := "w".data, currentURL := 0,
    transformers := [gobBaseStage], auth := .noneAuth 8, authenticated := false }

/-- Message for the C6 witness. -/
def mC6 : Base := ⟨1, 8, [], .empty, []⟩

/-- C6 witness environment: the server answers 401. -/
def envC6 : Env := ⟨.ok ⟨401, [], 0, []⟩, 0, []⟩

/-- C6 witness environment: the server answers 503. -/
def envC6b : Env := ⟨.ok ⟨503, [], 0, []⟩, 0, []⟩

/-- Witness for C6: a 401 remints the JWT and returns no messages; a 503
becomes a Server error carrying 503. -/
theorem send_status_dispatch_witness :
    (Send stC6 envC6 mC6 =
      ({ rotateURL stC6 envC6 with jwt := getJWT (rotateURL stC6 envC6) }, .ok [])
      ∧ getJWT (rotateURL stC6 envC6) = mintJWTModel (shaKey stC6.psk) stC6.agentID)
    ∧ Send stC6 envC6b mC6 = (rotateURL stC6 envC6b, .error (.server 503)) := by
  constructor
  · exact (send_status_dispatch stC6 envC6 mC6 ⟨401, [], 0, []⟩ (encodeBase mC6) rfl rfl).1 rfl
  · exact (send_status_dispatch stC6 envC6b mC6 ⟨503, [], 0, []⟩ (encodeBase mC6) rfl rfl).2
      (by decide) (by decide)

/-! ## Claim C7 — Content-Type and Content-Length gating -/

/-- Predicate "Send proceeded to deconstruction": the result is either a message
list or a deconstruction failure. -/
def reachedDeconstructOf (r : Except SendErr (List Base)) : Prop :=
  (∃ ms, r = .ok ms) ∨ (∃ e, r = .error (.deconstructErr e))

/-- The error kinds the spec groups as `ErrorKind::BadResponse`. -/
def isBadResponseErr : SendErr → Bool
  | .noContentType => true
  | .notOctetStream => true
  | .emptyBody => true
  | _ => false

/-- C7 counterexample: `utf-8, application/octet-stream` contains the
token `application/octet-stream` in the spec's comma-tolerant,
case-insensitive sense, yet `Send` rejects it with a BadResponse error,
because the code compares the comma-separated pieces without trimming the
space after the comma. -/
def stC7 : ClientState :=
  { agentID := 3, protocol := "http".data, URL := ["a".data], host := [], proxy := [],
    jwt := [], headers := [], secret := shaKey "k".data, userAgent := [],
    paddingMax := 0, parrot := [], ja3 := [], psk := "k".data, currentURL := 0,
    transformers := [gobBaseStage], auth := .noneAuth 3, authenticated := false }

/-- Message for the C7 theorems. -/
def mC7 : Base := ⟨1, 3, [], .empty, []⟩

/-- C7 counterexample environment: status 200, non-empty body, and a
Content-Type that contains the octet-stream token after a comma-space. -/
def envC7 : Env := ⟨.ok ⟨200, "utf-8, application/octet-stream".data, 3, []⟩, 0, []⟩

set_option maxRecDepth 8000 in
/-- Counterexample for C7 as stated: a Content-Type that contains the
octet-stream token (comma-tolerantly, case-insensitively) on which `Send`
nevertheless fails with a BadResponse error. -/
theorem send_content_token_counterexample :
    specContainsOctetToken "utf-8, application/octet-stream".data = true
    ∧ isOctet "utf-8, application/octet-stream".data = false
    ∧ (Send stC7 envC7 mC7).2 = .error .notOctetStream := by
  refine ⟨by decide, by decide, ?_⟩
  rfl

/-- C7 (amended): for a 200 response, `Send` proceeds to deconstruction
iff some comma-separated piece of the Content-Type, lowercased but NOT
whitespace-trimmed, equals `application/octet-stream` (so
`application/octet-stream, utf-8` is accepted but
`utf-8, application/octet-stream` is not) and the Content-Length is not
0; otherwise `Send` fails with a BadResponse error. -/
theorem send_content_checks
    (st : ClientState) (env : Env) (m : Base) (resp : HttpResp) (d : Bytes)
    (hcons : ClientConstruct st (padApply st env m) = .ok d)
    (hdo : env.doResult = .ok resp)
    (h200 : resp.status = 200) :
    (reachedDeconstructOf (Send st env m).2 ↔
      (isOctet resp.contentType = true ∧ resp.contentLength ≠ 0))
    ∧ (¬ (isOctet resp.contentType = true ∧ resp.contentLength ≠ 0) →
        ∃ er, (Send st env m).2 = .error er ∧ isBadResponseErr er = true) := by
  by_cases hct : resp.contentType = []
  · have hoct : isOctet resp.contentType = false := by rw [hct]; decide
    have hs : (Send st env m).2 = .error .noContentType := by
      simp only [Send, hcons, hdo, h200, hct]
      norm_num
    constructor
    · rw [hs]
      simp [reachedDeconstructOf, hoct]
    · intro _
      exact ⟨.noContentType, hs, rfl⟩
  · by_cases hoct : isOctet resp.contentType = true
    · by_cases hlen : resp.contentLength = 0
      · have hs : (Send st env m).2 = .error .emptyBody := by
          simp only [Send, hcons, hdo, h200, if_neg hct, hoct, hlen]
          norm_num
        constructor
        · rw [hs]
          simp [reachedDeconstructOf, hlen]
        · intro _
          exact ⟨.emptyBody, hs, rfl⟩
      · have hs : reachedDeconstructOf (Send st env m).2 := by
          cases hdr : (Deconstruct (rotateURL st env) resp.body).2 with
          | error e =>
              refine Or.inr ⟨e, ?_⟩
              simp only [Send, hcons, hdo, h200, if_neg hct, hoct, if_neg hlen, hdr]
              norm_num
          | ok rm =>
              refine Or.inl ⟨[rm], ?_⟩
              simp only [Send, hcons, hdo, h200, if_neg hct, hoct, if_neg hlen, hdr]
              by_cases htok : rm.token ≠ []
              · simp [htok]
              · simp [htok]
        constructor
        · exact ⟨fun _ => ⟨hoct, hlen⟩, fun _ => hs⟩
        · intro hcontra
          exact absurd ⟨hoct, hlen⟩ hcontra
    · have hs : (Send st env m).2 = .error .notOctetStream := by
        simp only [Send, hcons, hdo, h200, if_neg hct]
        rw [if_neg hoct]
        norm_num
      constructor
      · rw [hs]
        simp [reachedDeconstructOf, hoct]
      · intro _
        exact ⟨.notOctetStream, hs, rfl⟩

/-- C7 witness environment: a Content-Type the code accepts, non-zero
length, and a body that decodes to `mC7`. -/
def envC7w : Env :=
  ⟨.ok ⟨200, "application/octet-stream, utf-8".data, 3, encodeBase mC7⟩, 0, []⟩

set_option maxRecDepth 8000 in
/-- Witness for C7 (amended): a Content-Type the code accepts with a
non-zero length reaches deconstruction. -/
theorem send_content_checks_witness :
    reachedDeconstructOf (Send stC7 envC7w mC7).2 :=
  (send_content_checks stC7 envC7w mC7 ⟨200, "application/octet-stream, utf-8".data, 3,
    encodeBase mC7⟩ (encodeBase mC7) rfl rfl rfl).1.mpr ⟨by decide, by decide⟩

/-! ## Claim C10 — session JWT frame condition -/

/-- Frame fact: `Deconstruct` only ever mutates `secret` and `authenticated`. -/
theorem deconstruct_frame (st : ClientState) (d : Bytes) :
    (Deconstruct st d).1.jwt = st.jwt ∧ (Deconstruct st d).1.URL = st.URL ∧
    (Deconstruct st d).1.currentURL = st.currentURL ∧ (Deconstruct st d).1.psk = st.psk :=
  ⟨rfl, rfl, rfl, rfl⟩

/-- C10: when a 200 response deconstructs to a message whose `Token` field
is empty, `Send` leaves the client's JWT untouched — the session JWT is
replaced on the receive path only for a non-empty returned token. -/
theorem send_empty_token_preserves_jwt
    (st : ClientState) (env : Env) (m : Base) (resp : HttpResp) (d : Bytes) (rm : Base)
    (hcons : ClientConstruct st (padApply st env m) = .ok d)
    (hdo : env.doResult = .ok resp)
    (h200 : resp.status = 200)
    (hoct : isOctet resp.contentType = true)
    (hlen : resp.contentLength ≠ 0)
    (hdec : (Deconstruct (rotateURL st env) resp.body).2 = .ok rm)
    (htok : rm.token = []) :
    (Send st env m).1.jwt = st.jwt ∧ (Send st env m).2 = .ok [rm] := by
  have hct : resp.contentType ≠ [] := by
    intro h
    rw [h] at hoct
    exact absurd hoct (by decide)
  have hs : Send st env m = ((Deconstruct (rotateURL st env) resp.body).1, .ok [rm]) := by
    simp only [Send, hcons, hdo, h200, if_neg hct, hoct, if_neg hlen, hdec]
    simp [htok]
  rw [hs]
  exact ⟨((deconstruct_frame (rotateURL st env) resp.body).1).trans
    (rotateURL_frame st env).2.2.1, rfl⟩

/-- Client for the C10 witness, with a recognizable session JWT. -/
def stC10 : ClientState :=
  { agentID := 6, protocol := "http".data, URL := ["a".data], host := [], proxy := [],
    jwt := ['s', 'e', 's'], headers := [], secret := shaKey "q".data, userAgent := [],
    paddingMax := 0, parrot := [], ja3 := [], psk := "q".data, currentURL := 0,
    transformers := [gobBaseStage], auth := .noneAuth 6, authenticated := true }

/-- The token-less message returned by the server in the C10 witness. -/
def mC10 : Base := ⟨2, 6, [], .empty, []⟩

/-- C10 witness environment: a well-formed 200 response whose body decodes
to `mC10`. -/
def envC10 : Env :=
  ⟨.ok ⟨200, "application/octet-stream".data, 9, encodeBase mC10⟩, 0, []⟩

set_option maxRecDepth 8000 in
/-- Witness for C10: a 200 response decoding to a token-less message
leaves the session JWT unchanged. -/
theorem send_empty_token_preserves_jwt_witness :
    (Send stC10 envC10 mC10).1.jwt = stC10.jwt ∧ (Send stC10 envC10 mC10).2 = .ok [mC10] :=
  send_empty_token_preserves_jwt stC10 envC10 mC10
    ⟨200, "application/octet-stream".data, 9, encodeBase mC10⟩ (encodeBase mC10) mC10
    rfl rfl rfl (by decide) (by decide) rfl rfl

/-! ## Claim C4 — the `currentURL` bound -/

/-- Frame fact: `Send` never changes the URL list and only ever moves `currentURL` to
the `rand.Intn` draw. -/
theorem send_URL_frame (st : ClientState) (env : Env) (m : Base) :
    (Send st env m).1.URL = st.URL ∧
    ((Send st env m).1.currentURL = st.currentURL ∨
     (Send st env m).1.currentURL = env.randURL) := by
  simp only [Send]
  repeat' split
  all_goals
    first
      | exact ⟨rfl, Or.inl rfl⟩
      | exact ⟨rotateURL_URL st env, rotateURL_cur st env⟩

/-- C4 counterexample: a client satisfying `currentURL < len(URL)` on
which `Set("addr", "c")` succeeds (returns no error) yet leaves
`currentURL` out of range, because the `addr` case replaces the URL list
without resetting the index. -/
def stC4 : ClientState :=
  { agentID := 2, protocol := "http".data, URL := ["a".data, "b".data], host := [],
    proxy := [], jwt := [], headers := [], secret := shaKey "p".data, userAgent := [],
    paddingMax := 0, parrot := [], ja3 := [], psk := "p".data, currentURL := 1,
    transformers := [gobBaseStage], auth := .noneAuth 2, authenticated := false }

/-- Counterexample for C4 as stated: `Set("addr", "c")` on `stC4`
succeeds but leaves `currentURL = 1` against a 1-element URL list. -/
theorem currentURL_invariant_counterexample :
    stC4.currentURL < stC4.URL.length
    ∧ (SetOp stC4 "addr".data "c".data).2 = none
    ∧ ¬ ((SetOp stC4 "addr".data "c".data).1.currentURL <
        (SetOp stC4 "addr".data "c".data).1.URL.length) :=
  ⟨by decide, rfl, by decide⟩

/-- C4 (amended): after construction `currentURL` is 0 and the URL list is
the configured one (so the bound holds iff the config's URL list is
non-empty — `New` never checks this); `Send` preserves the bound (its
rotation draw stays in range); but `Set("addr", ...)` replaces the URL
list while leaving `currentURL` unchanged, so the bound survives that
operation only when the old index is below the new list's length. -/
theorem currentURL_invariant_characterization
    (cfg : Config) (c : ClientState) (st : ClientState) (env : Env) (m : Base) (v : Chars)
    (hnew : New cfg = .ok c)
    (hcur : st.currentURL < st.URL.length)
    (hrand : env.randURL < st.URL.length) :
    (c.currentURL = 0 ∧ c.URL = cfg.URL)
    ∧ ((Send st env m).1.URL = st.URL ∧ (Send st env m).1.currentURL < st.URL.length)
    ∧ ((SetOp st "addr".data v).1.URL = goSplit (goRemoveSpaces v) ",".data
        ∧ (SetOp st "addr".data v).1.currentURL = st.currentURL) := by
  refine ⟨?_, ⟨(send_URL_frame st env m).1, ?_⟩, rfl, rfl⟩
  · simp only [New] at hnew
    split at hnew
    · exact Except.noConfusion hnew
    · split at hnew
      · exact Except.noConfusion hnew
      · split at hnew
        · exact Except.noConfusion hnew
        · split at hnew
          · exact Except.noConfusion hnew
          · split at hnew
            · exact Except.noConfusion hnew
            · injection hnew with h
              subst h
              exact ⟨rfl, rfl⟩
  · rcases (send_URL_frame st env m).2 with h | h
    · rw [h]; exact hcur
    · rw [h]; exact hrand

/-- Config for the C4 witness. -/
def cfgC4 : Config :=
  { agentID := 9, protocol := "http".data, host := [], headers := [],
    URL := ["a".data, "b".data], proxy := [], userAgent := [], parrot := [],
    PSK := "k".data, JA3 := [], padding := [], authPackage := "none".data,
    transformers := "gob-base".data }

/-- The client `New cfgC4` constructs. -/
def cC4 : ClientState :=
  { agentID := 9, protocol := "http".data, URL := ["a".data, "b".data], host := [],
    proxy := [], jwt := [], headers := [], secret := shaKey "k".data, userAgent := [],
    paddingMax := 0, parrot := [], ja3 := [], psk := "k".data, currentURL := 0,
    transformers := [gobBaseStage], auth := .noneAuth 9, authenticated := false }

/-- Message for the C4 witness. -/
def mC4 : Base := ⟨1, 2, [], .empty, []⟩

/-- Environment for the C4 witness. -/
def envC4 : Env := ⟨.error "x".data, 0, []⟩

/-- Witness for C4 (amended) at a concrete config, client, environment and
addr value. -/
theorem currentURL_invariant_characterization_witness :
    (cC4.currentURL = 0 ∧ cC4.URL = cfgC4.URL)
    ∧ ((Send stC4 envC4 mC4).1.URL = stC4.URL
        ∧ (Send stC4 envC4 mC4).1.currentURL < stC4.URL.length)
    ∧ ((SetOp stC4 "addr".data "c,d".data).1.URL =
          goSplit (goRemoveSpaces "c,d".data) ",".data
        ∧ (SetOp stC4 "addr".data "c,d".data).1.currentURL = stC4.currentURL) :=
  currentURL_invariant_characterization cfgC4 cC4 stC4 envC4 mC4 "c,d".data
    rfl (by decide) (by decide)

/-! ## Claim C5 — header parsing on a line without a colon -/

/-- A config whose Headers string holds a line without a colon; all
earlier stages of `New` succeed, so construction reaches the header
parser. -/
def cfgC5 : Config :=
  { agentID := 2, protocol := "http".data, host := [], headers := "X-Header".data,
    URL := ["u".data], proxy := [], userAgent := [], parrot := [], PSK := "p".data,
    JA3 := [], padding := [], authPackage := "none".data, transformers := "gob-base".data }

/-- C5: on a header line without a colon, `New` does not return a Config
error — it commits the `h[1]` index-out-of-range panic of the header
loop (modelled as `NewErr.headerIndexPanic`), contradicting the spec's
"reject malformed lines at parse time rather than panicking". -/
theorem header_parse_panics : New cfgC5 = .error .headerIndexPanic := rfl

/-! ## Claim C8 — unknown and empty transformer identifiers -/

/-- An unknown identifier anywhere in the list makes the transformer
parsing loop fail. -/
theorem parseTransformList_unknown (l : List Chars) (bad : Chars)
    (hmem : bad ∈ l) (hunk : lookupTransform bad = none) :
    ∃ e, parseTransformList l = .error e := by
  induction l with
  | nil => cases hmem
  | cons t rest ih =>
      rw [List.mem_cons] at hmem
      cases h : lookupTransform t with
      | none => exact ⟨.badTransform t, by simp [parseTransformList, h]⟩
      | some tr =>
          have hbt : bad ∈ rest := by
            rcases hmem with h1 | h1
            · subst h1
              rw [hunk] at h
              exact Option.noConfusion h
            · exact h1
          obtain ⟨e, he⟩ := ih hbt
          exact ⟨e, by simp [parseTransformList, h, he]⟩

/-- Whatever the rest of the config, an unknown transform identifier in
the Transformers string makes `New` fail. -/
theorem new_unknown_transform_aux (cfg : Config) (bad : Chars)
    (hmem : bad ∈ goSplit cfg.transformers ",".data)
    (hunk : lookupTransform bad = none) :
    ∃ e, New cfg = .error e := by
  unfold New
  cases hau : authFromPackage cfg.authPackage cfg.agentID with
  | none => exact ⟨.badAuthenticator, rfl⟩
  | some au =>
      obtain ⟨e, he⟩ := parseTransformList_unknown _ bad hmem hunk
      exact ⟨e, by simp only [he]⟩

/-- C8: construction fails for every Transformers config containing a
stage identifier outside the ten recognised names (matched
case-insensitively — `lookupTransform` lowercases before comparing), and
a config with an empty Transformers string is rejected, because splitting
the empty string yields the single identifier `""`, which is unknown. -/
theorem new_rejects_unknown_transform (cfg cfg2 : Config) (bad : Chars)
    (hmem : bad ∈ goSplit cfg.transformers ",".data)
    (hunk : lookupTransform bad = none)
    (hempty : cfg2.transformers = []) :
    (∃ e, New cfg = .error e) ∧ (∃ e, New cfg2 = .error e) := by
  refine ⟨new_unknown_transform_aux cfg bad hmem hunk, ?_⟩
  apply new_unknown_transform_aux cfg2 []
  · rw [hempty]
    exact List.mem_singleton.mpr rfl
  · rfl

/-- C8 witness config with an unknown identifier in the middle. -/
def cfgC8 : Config :=
  { agentID := 1, protocol := "http".data, host := [], headers := [], URL := ["u".data],
    proxy := [], userAgent := [], parrot := [], PSK := "p".data, JA3 := [], padding := [],
    authPackage := "none".data, transformers := "aes,bogus".data }

/-- C8 witness config with an empty Transformers string. -/
def cfgC8b : Config :=
  { agentID := 1, protocol := "http".data, host := [], headers := [], URL := ["u".data],
    proxy := [], userAgent := [], parrot := [], PSK := "p".data, JA3 := [], padding := [],
    authPackage := "none".data, transformers := [] }

/-- Witness for C8: `aes,bogus` and the empty string are both rejected. -/
theorem new_rejects_unknown_transform_witness :
    (∃ e, New cfgC8 = .error e) ∧ (∃ e, New cfgC8b = .error e) :=
  new_rejects_unknown_transform cfgC8 cfgC8b "bogus".data (by decide) rfl rfl

/-! ## Claim C9 — ReRegister while registration is in flight -/

/-- C9: if the OPAQUE authenticator receives a ReRegister while
`registered == false`, it does nothing — the authenticator state is
returned unchanged, no user state is wiped — and emits the empty message,
so the client's Authenticate loop exits with no error on its next check,
leaving the authenticator state intact. -/
theorem pake_reregister_inflight
    (a : PakeAuthState) (inM : Base) (o : PakeMsg) (st : ClientState) (fuel : Nat)
    (envs : List Env)
    (hreg : a.registered = false)
    (hty : inM.mtype = pakeMsgTag)
    (hpl : inM.payload = .pake o)
    (hot : o.ptype = .reRegister)
    (hau : st.auth = .pakeAuth a) :
    pakeAuthenticate a inM = .ok (Base.zero, false, a)
    ∧ (Authenticate (fuel + 1) st envs inM).2 = none
    ∧ (Authenticate (fuel + 1) st envs inM).1.auth = .pakeAuth a := by
  have hstep : pakeAuthenticate a inM = .ok (Base.zero, false, a) := by
    unfold pakeAuthenticate preStep
    rw [hty, if_pos rfl, hpl]
    simp only [hot, hreg]
    norm_num
  refine ⟨hstep, ?_⟩
  have hau2 : (authPrep st).auth = .pakeAuth a := hau
  have hloop : authLoop (fuel + 1) (authPrep st) envs inM =
      ({ authPrep st with auth := .pakeAuth a }, none) := by
    simp only [authLoop, Auth.step, hau2, hstep]
    norm_num [Base.zero]
  constructor
  · show (authLoop (fuel + 1) (authPrep st) envs inM).2 = none
    rw [hloop]
  · show (authLoop (fuel + 1) (authPrep st) envs inM).1.auth = .pakeAuth a
    rw [hloop]

/-- Authenticator state for the C9 witness: registration in flight. -/
def aC9 : PakeAuthState := ⟨7, false, false, some (newUserModel 7)⟩

/-- The inbound ReRegister message for the C9 witness. -/
def mC9 : Base := ⟨pakeMsgTag, 7, [], .pake ⟨.reRegister, []⟩, []⟩

/-- Client for the C9 witness. -/
def stC9 : ClientState :=
  { agentID := 7, protocol := "http".data, URL := ["u".data], host := [], proxy := [],
    jwt := [], headers := [], secret := shaKey "p".data, userAgent := [],
    paddingMax := 0, parrot := [], ja3 := [], psk := "p".data, currentURL := 0,
    transformers := [gobBaseStage], auth := .pakeAuth aC9, authenticated := false }

/-- Witness for C9 at a concrete in-flight authenticator state. -/
theorem pake_reregister_inflight_witness :
    pakeAuthenticate aC9 mC9 = .ok (Base.zero, false, aC9)
    ∧ (Authenticate 3 stC9 [] mC9).2 = none
    ∧ (Authenticate 3 stC9 [] mC9).1.auth = .pakeAuth aC9 :=
  pake_reregister_inflight aC9 mC9 ⟨.reRegister, []⟩ stC9 2 [] rfl rfl rfl rfl rfl

end Merlin
